import Mathlib

/-!
Verification of the pH-of-seawater pipeline in
ion_functions/data/ph_functions.py (functions ph_434_intensity,
ph_578_intensity, ph_calc_phwater and ph_phwater).

Modelling conventions: numpy float values are elements of a linear
ordered field K (the pipeline itself is instantiated at K = ℝ); a numpy
array of fixed length n is a function out of Fin n; np.lib.scimath.log10
is the complex logarithm divided by the complex logarithm of 10, and
np.log10 is Real.logb 10; variable-length inputs (for the length checks
that np.reshape and indexing perform) are Lists, and the exception a
numpy call raises is an Except.error value.
-/

section GenericArith

variable {K : Type} [LinearOrderedField K]

/-- np.mean of a list of values: sum divided by length. -/
def npMean (l : List K) : K := l.sum / (l.length : K)

/-- First index of a maximal entry of a list, the semantics of np.argmax:
in case of ties the earliest index wins.  (np.argmax of an empty array is
an error; the empty case never arises below and is mapped to 0.) -/
def npArgmax : List K → ℕ
  | [] => 0
  | x :: xs => if xs.getD (npArgmax xs) x ≤ x then 0 else npArgmax xs + 1

/-- Blank at 434 nm, ph_phwater lines 144-150: np.mean of the four
reference-cycle ratios ref[1]/ref[0], ref[5]/ref[4], ref[9]/ref[8],
ref[13]/ref[12]. -/
def blank434 (ref : Fin 16 → K) : K :=
  npMean [ref 1 / ref 0, ref 5 / ref 4, ref 9 / ref 8, ref 13 / ref 12]

/-- Blank at 578 nm, ph_phwater lines 152-158: np.mean of
ref[3]/ref[2], ref[7]/ref[6], ref[11]/ref[10], ref[15]/ref[14]. -/
def blank578 (ref : Fin 16 → K) : K :=
  npMean [ref 3 / ref 2, ref 7 / ref 6, ref 11 / ref 10, ref 15 / ref 14]

/-- Temperature-corrected molar absorptivity, line 185:
ea434 = ea434 - (26. * (therm - 24.788)). -/
def ea434corr (ea434 therm : K) : K := ea434 - 26 * (therm - 24.788)

/-- Temperature-corrected molar absorptivity, line 186:
ea578 = ea578 + (therm - 24.788). -/
def ea578corr (ea578 therm : K) : K := ea578 + (therm - 24.788)

/-- Temperature-corrected molar absorptivity, line 187:
eb434 = eb434 + (12. * (therm - 24.788)). -/
def eb434corr (eb434 therm : K) : K := eb434 + 12 * (therm - 24.788)

/-- Temperature-corrected molar absorptivity, line 188:
eb578 = eb578 - (71. * (therm - 24.788)). -/
def eb578corr (eb578 therm : K) : K := eb578 - 71 * (therm - 24.788)

/-- line 189: e1 = ea578 / ea434 (with the corrected absorptivities). -/
def e1val (ea434 ea578 therm : K) : K := ea578corr ea578 therm / ea434corr ea434 therm

/-- line 190: e2 = eb578 / ea434 (with the corrected absorptivities). -/
def e2val (ea434 eb578 therm : K) : K := eb578corr eb578 therm / ea434corr ea434 therm

/-- line 191: e3 = eb434 / ea434 (with the corrected absorptivities). -/
def e3val (ea434 eb434 therm : K) : K := eb434corr eb434 therm / ea434corr ea434 therm

/-- line 181: pKa from Clayton and Byrne 1993. -/
def pKa (therm psal : K) : K :=
  1245.69 / (therm + 273.15) + 3.8275 + 0.0021 * (35 - psal)

/-- line 197: protonated-indicator term HI at one point (a434, a578 are
the blank-corrected absorbances at that point, the e-arguments the
temperature-corrected absorptivities). -/
def HIval (a434 a578 ea434c eb434c ea578c eb578c : K) : K :=
  (a434 * eb578c - a578 * eb434c) / (ea434c * eb578c - eb434c * ea578c)

/-- line 198: deprotonated-indicator term I at one point. -/
def Ival (a434 a578 ea434c eb434c ea578c eb578c : K) : K :=
  (a578 * ea434c - a434 * ea578c) / (ea434c * eb578c - eb434c * ea578c)

/-- line 199: IndConc = HI + I at one point. -/
def indConcPt (a434 a578 ea434c eb434c ea578c eb578c : K) : K :=
  HIval a434 a578 ea434c eb434c ea578c eb578c +
    Ival a434 a578 ea434c eb434c ea578c eb578c

/-- X = np.linspace(1, 18, 18), line 207: the k-th (0-based) synthetic
x-coordinate is k + 1. -/
def xcoord (k : ℕ) : K := (k : K) + 1

/-- Y = pointph[5:] (and IndConca = IndConc[5:]), lines 205-206: the
series with the first five points dropped. -/
def drop5 (Y : Fin 23 → K) (k : Fin 18) : K :=
  Y ⟨k.val + 5, by have := k.isLt; omega⟩

/-- Loop body computing r2[i], lines 219-232: R-squared of the 8-point
window of (x-coordinate, Y) pairs starting at offset i, with
count = step + 1 = 8.  (avgx and avgy are computed by the code inside the
loop but never used there.) -/
def r2win (Y : Fin 23 → K) (i : Fin 11) : K :=
  let X : Fin 8 → K := fun j => xcoord (i.val + j.val)
  let Yw : Fin 8 → K := fun j =>
    drop5 Y ⟨i.val + j.val, by have := i.isLt; have := j.isLt; omega⟩
  let count : K := 8
  let sumx := ∑ j, X j
  let sumy := ∑ j, Yw j
  let sumxy := ∑ j, X j * Yw j
  let sumx2 := ∑ j, X j ^ 2
  let sumy2 := ∑ j, Yw j ^ 2
  let ssxy := sumxy - sumx * sumy / count
  let ssx := sumx2 - sumx * sumx / count
  let ssy := sumy2 - sumy * sumy / count
  ssxy ^ 2 / (ssx * ssy)

/-- The r2 array, lines 217-232: npts = 18 - 7 = 11 entries. -/
def r2List (Y : Fin 23 → K) : List K := List.ofFn (fun i : Fin 11 => r2win Y i)

/-- cutoff1 = np.argmax(r2), line 235. -/
def cutoff1 (Y : Fin 23 → K) : ℕ := npArgmax (r2List Y)

/-- Final least-squares step, lines 243-256: over the selected 8-point
window (IndConcS as x, pointphS as y), slope = ssxy / ssx and
ph = ybar - slope * xbar, with count = 8 carried over from the window
search.  (sumy2 and ssy are computed by the code but unused.) -/
def finalPH (IndConcS pointphS : Fin 8 → K) : K :=
  let count : K := 8
  let sumx := ∑ j, IndConcS j
  let sumy := ∑ j, pointphS j
  let sumxy := ∑ j, pointphS j * IndConcS j
  let sumx2 := ∑ j, IndConcS j ^ 2
  let xbar := sumx / count
  let ybar := sumy / count
  let ssxy := sumxy - sumx * sumy / count
  let ssx := sumx2 - sumx * sumx / count
  let slope := ssxy / ssx
  ybar - slope * xbar

end GenericArith

section Reshape

variable {α : Type}

/-- Column j of np.reshape(light, (23, 4)) in row-major order, as used on
lines 165-169 and 24-25: entry i of column j is light[4 * i + j]. -/
def reshapeCol (light : Fin 92 → α) (j : Fin 4) : Fin 23 → α :=
  fun i => light ⟨4 * i.val + j.val, by have := i.isLt; have := j.isLt; omega⟩

/-- ph_434_intensity, single-record branch (lines 23-25): the code slices
column 3 of the reshape (new[:, 3]). -/
def ph434intensitySingle (light : Fin 92 → α) : Fin 23 → α := reshapeCol light 3

/-- ph_578_intensity, single-record branch (lines 44-46): column 3 of the
reshape (new[:, 3]). -/
def ph578intensitySingle (light : Fin 92 → α) : Fin 23 → α := reshapeCol light 3

/-- Per-record extraction performed by the multi-record branch of
ph_434_intensity (lines 27-32): column 1 of the reshape (new[:, 1]). -/
def ph434intensityRow (light : Fin 92 → α) : Fin 23 → α := reshapeCol light 1

end Reshape

section ArgmaxLemmas

variable {K : Type} [LinearOrderedField K]

omit [LinearOrderedField K] in
/-- In-range List.getD does not depend on the default value. -/
theorem getD_irrel (l : List K) (n : ℕ) (d e : K) (h : n < l.length) :
    l.getD n d = l.getD n e := by
  rw [List.getD_eq_getElem l d h, List.getD_eq_getElem l e h]

/-- np.argmax of a nonempty array is an index into the array. -/
theorem npArgmax_lt : ∀ l : List K, l ≠ [] → npArgmax l < l.length
  | [], h => absurd rfl h
  | x :: xs, _ => by
    rw [npArgmax]
    split
    · simp
    · rename_i hc
      rcases eq_or_ne xs [] with hxs | hxs
      · subst hxs; simp at hc
      · simpa using Nat.succ_lt_succ (npArgmax_lt xs hxs)

/-- The entry at np.argmax is maximal. -/
theorem getD_le_npArgmax :
    ∀ (l : List K) (d : K) (j : ℕ), j < l.length →
      l.getD j d ≤ l.getD (npArgmax l) d
  | [], _, j, hj => absurd hj (by simp)
  | x :: xs, d, j, hj => by
    rw [npArgmax]
    split
    · rename_i hc
      cases j with
      | zero => simp
      | succ k =>
        have hk : k < xs.length := by simpa using hj
        have hxs : xs ≠ [] := by rintro rfl; exact absurd hk (by simp)
        simp only [List.getD_cons_succ, List.getD_cons_zero]
        calc xs.getD k d ≤ xs.getD (npArgmax xs) d := getD_le_npArgmax xs d k hk
          _ = xs.getD (npArgmax xs) x := getD_irrel _ _ _ _ (npArgmax_lt xs hxs)
          _ ≤ x := hc
    · rename_i hc
      push_neg at hc
      have hxs : xs ≠ [] := by rintro rfl; simp at hc
      cases j with
      | zero =>
        simp only [List.getD_cons_zero, List.getD_cons_succ]
        have h2 : xs.getD (npArgmax xs) x = xs.getD (npArgmax xs) d :=
          getD_irrel _ _ _ _ (npArgmax_lt xs hxs)
        exact le_of_lt (h2 ▸ hc)
      | succ k =>
        simp only [List.getD_cons_succ]
        exact getD_le_npArgmax xs d k (by simpa using hj)

/-- np.argmax returns the first maximal entry: every strictly earlier
entry is strictly smaller. -/
theorem getD_lt_of_lt_npArgmax :
    ∀ (l : List K) (d : K) (j : ℕ), j < npArgmax l →
      l.getD j d < l.getD (npArgmax l) d
  | [], _, j, hj => by simp [npArgmax] at hj
  | x :: xs, d, j, hj => by
    by_cases hc : xs.getD (npArgmax xs) x ≤ x
    · rw [npArgmax, if_pos hc] at hj
      exact absurd hj (by simp)
    · rw [npArgmax, if_neg hc] at hj ⊢
      push_neg at hc
      have hxs : xs ≠ [] := by rintro rfl; simp at hc
      have hd : xs.getD (npArgmax xs) x = xs.getD (npArgmax xs) d :=
        getD_irrel _ _ _ _ (npArgmax_lt xs hxs)
      cases j with
      | zero =>
        simp only [List.getD_cons_zero, List.getD_cons_succ]
        exact hd ▸ hc
      | succ k =>
        simp only [List.getD_cons_succ]
        exact getD_lt_of_lt_npArgmax xs d k (by omega)

/-- The selected window offset is one of the 11 candidates. -/
theorem cutoff1_lt_11 (Y : Fin 23 → K) : cutoff1 Y < 11 := by
  have h := npArgmax_lt (r2List Y) (by simp [r2List])
  simpa [r2List, cutoff1] using h

end ArgmaxLemmas

noncomputable section RealPipeline

/-- np.log10 over the reals. -/
def log10 (x : ℝ) : ℝ := Real.logb 10 x

/-- np.lib.scimath.log10: the base-10 logarithm evaluated over the
complex domain (line 200). -/
def scimathLog10 (x : ℝ) : ℂ := Complex.log (x : ℂ) / Complex.log 10

/-- A434 = -np.log10(int434 / ref434), line 172 (int434 and ref434 are
columns 1 and 0 of the reshaped light record). -/
def A434 (light : Fin 92 → ℝ) : Fin 23 → ℝ :=
  fun i => -log10 (reshapeCol light 1 i / reshapeCol light 0 i)

/-- A434blank = -np.log10(blank434), line 173. -/
def A434blank (ref : Fin 16 → ℝ) : ℝ := -log10 (blank434 ref)

/-- abs434 = A434 - A434blank, line 174: blank-corrected absorbance. -/
def abs434 (ref : Fin 16 → ℝ) (light : Fin 92 → ℝ) : Fin 23 → ℝ :=
  fun i => A434 light i - A434blank ref

/-- A578 = -np.log10(int578 / ref578), line 176 (columns 3 and 2). -/
def A578 (light : Fin 92 → ℝ) : Fin 23 → ℝ :=
  fun i => -log10 (reshapeCol light 3 i / reshapeCol light 2 i)

/-- A578blank = -np.log10(blank578), line 177. -/
def A578blank (ref : Fin 16 → ℝ) : ℝ := -log10 (blank578 ref)

/-- abs578 = A578 - A578blank, line 178: blank-corrected absorbance. -/
def abs578 (ref : Fin 16 → ℝ) (light : Fin 92 → ℝ) : Fin 23 → ℝ :=
  fun i => A578 light i - A578blank ref

/-- R = (A578 - A578blank) / (A434 - A434blank), line 182. -/
def Rpt (ref : Fin 16 → ℝ) (light : Fin 92 → ℝ) : Fin 23 → ℝ :=
  fun i => (A578 light i - A578blank ref) / (A434 light i - A434blank ref)

/-- V1 = R - e1, line 193. -/
def V1 (ref : Fin 16 → ℝ) (light : Fin 92 → ℝ) (therm ea434 ea578 : ℝ) :
    Fin 23 → ℝ :=
  fun i => Rpt ref light i - e1val ea434 ea578 therm

/-- V2 = e2 - R * e3, line 194. -/
def V2 (ref : Fin 16 → ℝ) (light : Fin 92 → ℝ) (therm ea434 eb434 eb578 : ℝ) :
    Fin 23 → ℝ :=
  fun i => e2val ea434 eb578 therm - Rpt ref light i * e3val ea434 eb434 therm

/-- pointph = np.real(pKa + np.lib.scimath.log10(V1 / V2)), line 200. -/
def pointph (ref : Fin 16 → ℝ) (light : Fin 92 → ℝ)
    (therm ea434 eb434 ea578 eb578 psal : ℝ) : Fin 23 → ℝ :=
  fun i => (((pKa therm psal : ℝ) : ℂ) +
    scimathLog10 (V1 ref light therm ea434 ea578 i /
      V2 ref light therm ea434 eb434 eb578 i)).re

/-- IndConc = HI + I at point i, lines 197-199, with the corrected
absorptivities substituted (the code reassigns ea434, ea578, eb434 and
eb578 on lines 185-188 before computing HI and I). -/
def IndConc (ref : Fin 16 → ℝ) (light : Fin 92 → ℝ)
    (therm ea434 eb434 ea578 eb578 : ℝ) : Fin 23 → ℝ :=
  fun i => indConcPt (abs434 ref light i) (abs578 ref light i)
    (ea434corr ea434 therm) (eb434corr eb434 therm)
    (ea578corr ea578 therm) (eb578corr eb578 therm)

/-- ph_phwater, lines 102-257, on a well-shaped record: candidate points
and indicator concentrations, drop of the first 5 points, window search
(cutoff1 = np.argmax(r2), cutoff2 = cutoff1 + 8) and the final
least-squares step on the selected slice. -/
def phPhwater (ref : Fin 16 → ℝ) (light : Fin 92 → ℝ)
    (therm ea434 eb434 ea578 eb578 psal : ℝ) : ℝ :=
  let Y : Fin 23 → ℝ := pointph ref light therm ea434 eb434 ea578 eb578 psal
  let IndConca : Fin 18 → ℝ :=
    drop5 (IndConc ref light therm ea434 eb434 ea578 eb578)
  let c : ℕ := cutoff1 Y
  have hc : c < 11 := cutoff1_lt_11 Y
  finalPH (fun j => IndConca ⟨c + j.val, by have := j.isLt; omega⟩)
    (fun j => drop5 Y ⟨c + j.val, by have := j.isLt; omega⟩)

/-- Error raised by a record computation.  The spec's taxonomy also names
invalidMeasurement, singularSystem and degenerateWindow; the code can
only raise shape errors (np.reshape of a wrong-size array on line 165,
or indexing past the end of ref on lines 144-157). -/
inductive PhErr : Type
  | malformedRecord
  | invalidMeasurement
  | singularSystem
  | degenerateWindow
  deriving DecidableEq

/-- One raw record of ph_phwater inputs, with the two arrays kept as
variable-length lists so that the shape requirements (16 reference
counts, 92 light counts) are checked rather than assumed. -/
structure RecordL where
  ref : List ℝ
  light : List ℝ
  therm : ℝ
  ea434 : ℝ
  eb434 : ℝ
  ea578 : ℝ
  eb578 : ℝ

/-- ph_phwater on a raw record.  The blank computation (lines 144-158)
indexes ref[0]..ref[15] and raises if ref has fewer than 16 entries
(extra entries are ignored); np.reshape(light, (23, 4)) on line 165
raises if light does not hold exactly 92 entries.  No other statement of
ph_phwater can raise: the remaining arithmetic (division by zero,
logarithms of non-positive arguments) is total in numpy, producing
warnings and non-finite values but no exception.  Both shape failures
are MalformedRecord errors in the spec's taxonomy. -/
def phPhwaterE (rec : RecordL) (psal : ℝ) : Except PhErr ℝ :=
  if h1 : 16 ≤ rec.ref.length then
    if h2 : rec.light.length = 92 then
      .ok (phPhwater (fun i => rec.ref.get ⟨i.val, by have := i.isLt; omega⟩)
        (fun i => rec.light.get ⟨i.val, by have := i.isLt; omega⟩)
        rec.therm rec.ea434 rec.eb434 rec.ea578 rec.eb578 psal)
    else .error .malformedRecord
  else .error .malformedRecord

/-- Batch branch of ph_calc_phwater (lines 81-97) over raw records: the
loop calls ph_phwater once per record, in order; a raised exception
aborts the whole call (there is no try/except around the loop), so the
first failing record discards every result.  np.tile replicates a scalar
psal across records, so each record receives the same psal value. -/
def phCalcPhwaterE (recs : List RecordL) (psal : ℝ) : Except PhErr (List ℝ) :=
  match recs with
  | [] => .ok []
  | r :: rs =>
    match phPhwaterE r psal with
    | .error e => .error e
    | .ok v =>
      match phCalcPhwaterE rs psal with
      | .error e => .error e
      | .ok vs => .ok (v :: vs)

/-- One well-shaped record: the rows of the 2-D ref and light arrays of a
batch call have their lengths fixed at 16 and 92 by the array shape. -/
structure PhRecord where
  ref : Fin 16 → ℝ
  light : Fin 92 → ℝ
  therm : ℝ
  ea434 : ℝ
  eb434 : ℝ
  ea578 : ℝ
  eb578 : ℝ

/-- ph_phwater applied to the fields of one well-shaped record, as done
by the loop body on lines 95-97. -/
def phPhwaterRec (r : PhRecord) (psal : ℝ) : ℝ :=
  phPhwater r.ref r.light r.therm r.ea434 r.eb434 r.ea578 r.eb578 psal

/-- Batch branch of ph_calc_phwater (lines 81-97) on well-shaped records
with a scalar salinity: psal is replicated once per record (np.tile on
line 91) and the loop pairs record iRec with psal[iRec]. -/
def phCalcPhwater (recs : List PhRecord) (psal : ℝ) : List ℝ :=
  List.zipWith (fun r s => phPhwaterRec r s) recs
    (List.replicate recs.length psal)

end RealPipeline

/-- A record whose light array has 91 entries (a malformed record). -/
def badRec : RecordL := ⟨List.replicate 16 1, List.replicate 91 1, 0, 0, 0, 0, 0⟩

/-- A well-shaped record. -/
def goodRec : RecordL := ⟨List.replicate 16 1, List.replicate 92 1, 0, 0, 0, 0, 0⟩

/-- A well-shaped record whose reference cycle starts with ref[0] = 0, a
zero denominator in the blank computation. -/
def zeroDenRec : RecordL :=
  ⟨0 :: List.replicate 15 1, List.replicate 92 1, 0, 0, 0, 0, 0⟩

/-- Reference temperature constant (degrees C) named by the spec; the
code writes the literal 24.788 at each of the four corrections. -/
def Tref {K : Type} [LinearOrderedField K] : K := 24.788

/-- C6: for a record with measured temperature therm, the four molar
absorptivities used downstream are ea434 - 26(T - Tref),
eb434 + 12(T - Tref), ea578 + (T - Tref) and eb578 - 71(T - Tref), with
the reference temperature fixed at 24.788 degrees C. -/
theorem absorptivity_correction {K : Type} [LinearOrderedField K]
    (ea434 eb434 ea578 eb578 therm : K) :
    ea434corr ea434 therm = ea434 - 26 * (therm - Tref) ∧
    eb434corr eb434 therm = eb434 + 12 * (therm - Tref) ∧
    ea578corr ea578 therm = ea578 + (therm - Tref) ∧
    eb578corr eb578 therm = eb578 - 71 * (therm - Tref) ∧
    (Tref : K) = 24.788 :=
  ⟨rfl, rfl, rfl, rfl, rfl⟩

/-- C5: for a 16-element reference cycle with nonzero denominators,
blank434 is the arithmetic mean of ref[1]/ref[0], ref[5]/ref[4],
ref[9]/ref[8], ref[13]/ref[12], and blank578 the arithmetic mean of
ref[3]/ref[2], ref[7]/ref[6], ref[11]/ref[10], ref[15]/ref[14]. -/
theorem blank_means {K : Type} [LinearOrderedField K] (ref : Fin 16 → K)
    (_h0 : ref 0 ≠ 0) (_h4 : ref 4 ≠ 0) (_h8 : ref 8 ≠ 0) (_h12 : ref 12 ≠ 0)
    (_h2 : ref 2 ≠ 0) (_h6 : ref 6 ≠ 0) (_h10 : ref 10 ≠ 0) (_h14 : ref 14 ≠ 0) :
    blank434 ref =
      (ref 1 / ref 0 + ref 5 / ref 4 + ref 9 / ref 8 + ref 13 / ref 12) / 4 ∧
    blank578 ref =
      (ref 3 / ref 2 + ref 7 / ref 6 + ref 11 / ref 10 + ref 15 / ref 14) / 4 := by
  constructor <;>
    · simp only [blank434, blank578, npMean, List.sum_cons, List.sum_nil,
        List.length_cons, List.length_nil]
      norm_num
      ring

/-- Concrete reference cycle for the blank-mean witness: ref[i] = 2. -/
def wref16 : Fin 16 → ℚ := fun _ => 2

/-- Witness for C5 at the concrete reference cycle wref16. -/
theorem blank_means_witness :
    (wref16 0 ≠ 0 ∧ wref16 4 ≠ 0 ∧ wref16 8 ≠ 0 ∧ wref16 12 ≠ 0 ∧
     wref16 2 ≠ 0 ∧ wref16 6 ≠ 0 ∧ wref16 10 ≠ 0 ∧ wref16 14 ≠ 0) ∧
    blank434 wref16 =
      (wref16 1 / wref16 0 + wref16 5 / wref16 4 + wref16 9 / wref16 8 +
        wref16 13 / wref16 12) / 4 ∧
    blank578 wref16 =
      (wref16 3 / wref16 2 + wref16 7 / wref16 6 + wref16 11 / wref16 10 +
        wref16 15 / wref16 14) / 4 :=
  ⟨⟨by decide, by decide, by decide, by decide,
    by decide, by decide, by decide, by decide⟩,
   blank_means wref16 (by decide) (by decide) (by decide)
     (by decide) (by decide) (by decide)
     (by decide) (by decide)⟩

/-- C10: on a single (1-D) 92-element light record, ph_434_intensity
returns exactly the values ph_578_intensity returns, namely column 3
(the 578 nm signal) of the 23x4 reshape, and differs from the column-1
values its own multi-record branch extracts wherever columns 1 and 3
differ. -/
theorem intensity434_single_eq_578 {α : Type} (light : Fin 92 → α) :
    (∀ i : Fin 23, ph434intensitySingle light i = ph578intensitySingle light i) ∧
    (∀ i : Fin 23, ph578intensitySingle light i = reshapeCol light 3 i) ∧
    (∀ i : Fin 23, reshapeCol light 1 i ≠ reshapeCol light 3 i →
      ph434intensitySingle light i ≠ ph434intensityRow light i) :=
  ⟨fun _ => rfl, fun _ => rfl, fun _ h he => h he.symm⟩

/-- Concrete light record for the intensity witness: light[k] = k. -/
def wlight92 : Fin 92 → ℕ := fun k => k.val

/-- Witness for C10 at the concrete light record wlight92, where
column 1 and column 3 differ at point 0 (values 1 and 3). -/
theorem intensity434_single_eq_578_witness :
    reshapeCol wlight92 1 0 ≠ reshapeCol wlight92 3 0 ∧
    ph434intensitySingle wlight92 0 ≠ ph434intensityRow wlight92 0 :=
  ⟨by decide, (intensity434_single_eq_578 wlight92).2.2 0 (by decide)⟩

/-- C9: a light record whose length is not 92 makes ph_phwater raise a
MalformedRecord error (np.reshape refuses the resize; nothing is
silently truncated or reshaped). -/
theorem light_length_errors (rec : RecordL) (psal : ℝ)
    (h : rec.light.length ≠ 92) :
    phPhwaterE rec psal = .error PhErr.malformedRecord := by
  by_cases h1 : 16 ≤ rec.ref.length
  · rw [phPhwaterE, dif_pos h1, dif_neg h]
  · rw [phPhwaterE, dif_neg h1]

/-- Witness for C9 at a record whose light array has 91 entries. -/
theorem light_length_errors_witness :
    badRec.light.length ≠ 92 ∧
    phPhwaterE badRec 35 = .error PhErr.malformedRecord :=
  ⟨by simp [badRec], light_length_errors badRec 35 (by simp [badRec])⟩

/-- C8 counterexample: a 16-element reference cycle with a zero
denominator (ref[0] = 0) is not rejected: the record computation
succeeds, and in particular never returns an InvalidMeasurement error. -/
theorem blank_no_validation_cex :
    (phPhwaterE zeroDenRec 35).isOk = true ∧
    phPhwaterE zeroDenRec 35 ≠ .error PhErr.invalidMeasurement := by
  constructor
  · simp [phPhwaterE, zeroDenRec, Except.isOk, Except.toBool]
  · simp [phPhwaterE, zeroDenRec]

/-- C8 amended: the blank-estimation step performs no validation: every
record with at least 16 reference counts and exactly 92 light counts
produces a numeric result, zero denominators and non-positive ratios
included (numpy emits non-finite values, not exceptions). -/
theorem blank_no_validation (rec : RecordL) (psal : ℝ)
    (h1 : 16 ≤ rec.ref.length) (h2 : rec.light.length = 92) :
    (phPhwaterE rec psal).isOk = true := by
  rw [phPhwaterE, dif_pos h1, dif_pos h2]
  rfl

/-- Witness for the amended C8 at the zero-denominator record. -/
theorem blank_no_validation_witness :
    16 ≤ zeroDenRec.ref.length ∧ zeroDenRec.light.length = 92 ∧
    (phPhwaterE zeroDenRec 35).isOk = true :=
  ⟨by simp [zeroDenRec], by simp [zeroDenRec],
   blank_no_validation zeroDenRec 35 (by simp [zeroDenRec])
     (by simp [zeroDenRec])⟩

/-- C7 counterexample: with a malformed first record and a well-formed
second record, the batch computation fails as a whole, so the second
record's result - which exists when that record is run in isolation - is
not produced by the batch. -/
theorem batch_not_isolated_cex :
    (phCalcPhwaterE [badRec, goodRec] 35).isOk = false ∧
    (phPhwaterE goodRec 35).isOk = true := by
  constructor
  · simp [phCalcPhwaterE, phPhwaterE, badRec, Except.isOk, Except.toBool]
  · simp [phPhwaterE, goodRec, Except.isOk, Except.toBool]

/-- C7 amended: the batch contract is fail-fast: if any record of the
batch fails, the whole batch computation fails and no per-record results
are produced (the loop has no try/except; the exception propagates). -/
theorem batch_fail_fast (recs : List RecordL) (psal : ℝ) (r : RecordL)
    (hr : r ∈ recs) (hfail : (phPhwaterE r psal).isOk = false) :
    (phCalcPhwaterE recs psal).isOk = false := by
  induction recs with
  | nil => cases hr
  | cons a rs ih =>
    rw [phCalcPhwaterE]
    rcases List.mem_cons.mp hr with rfl | hmem
    · cases ha : phPhwaterE r psal with
      | error e => rfl
      | ok v =>
        rw [ha] at hfail
        exact absurd hfail (by simp [Except.isOk, Except.toBool])
    · cases ha : phPhwaterE a psal with
      | error e => rfl
      | ok v =>
        cases hbb : phCalcPhwaterE rs psal with
        | error e => rfl
        | ok vs =>
          have hb := ih hmem
          rw [hbb] at hb
          exact absurd hb (by simp [Except.isOk, Except.toBool])

/-- Witness for the amended C7: the malformed record makes the two-record
batch fail. -/
theorem batch_fail_fast_witness :
    badRec ∈ [badRec, goodRec] ∧ (phPhwaterE badRec 35).isOk = false ∧
    (phCalcPhwaterE [badRec, goodRec] 35).isOk = false :=
  ⟨List.mem_cons_self _ _,
   by simp [phPhwaterE, badRec, Except.isOk, Except.toBool],
   batch_fail_fast [badRec, goodRec] 35 badRec (List.mem_cons_self _ _)
     (by simp [phPhwaterE, badRec, Except.isOk, Except.toBool])⟩

/-- C1: each candidate pH at point i is the real part of
pKa + log10((R - e1)/(e2 - R*e3)) with the log10 evaluated over the
complex domain, where pKa is the Clayton-Byrne fit, R the ratio of
blank-corrected absorbance at 578 nm to that at 434 nm, and e1, e2, e3
the ratios of the temperature-corrected absorptivities; the real part of
the complex-domain log10 is the finite value log10 of the absolute
value, so a negative argument yields a finite real part. -/
theorem pointph_spec (ref : Fin 16 → ℝ) (light : Fin 92 → ℝ)
    (therm ea434 eb434 ea578 eb578 psal : ℝ) (i : Fin 23) :
    pointph ref light therm ea434 eb434 ea578 eb578 psal i =
      (((1245.69 / (therm + 273.15) + 3.8275 + 0.0021 * (35 - psal) : ℝ) : ℂ) +
        scimathLog10
          ((abs578 ref light i / abs434 ref light i -
              ea578corr ea578 therm / ea434corr ea434 therm) /
            (eb578corr eb578 therm / ea434corr ea434 therm -
              abs578 ref light i / abs434 ref light i *
                (eb434corr eb434 therm / ea434corr ea434 therm)))).re ∧
    (∀ x : ℝ, (scimathLog10 x).re = Real.logb 10 |x|) := by
  constructor
  · rfl
  · intro x
    rw [scimathLog10]
    rw [show ((10 : ℂ)) = ((10 : ℝ) : ℂ) by norm_num]
    rw [← Complex.ofReal_log (by norm_num : (0:ℝ) ≤ 10)]
    rw [Complex.div_ofReal_re, Complex.log_ofReal_re]
    rw [Real.logb, Real.log_abs]

/-- Spec-side x-value for C2: the j-th point of the window at offset i
has synthetic x-coordinate (i + j) + 1, drawn from the coordinates
1..18. -/
def specWinX {K : Type} [LinearOrderedField K] (i : Fin 11) (j : Fin 8) : K :=
  ((i.val + j.val : ℕ) : K) + 1

/-- Spec-side y-value for C2: the j-th point of the window at offset i is
candidate point number i + j + 5 (the first five of the 23 dropped). -/
def specWinY {K : Type} [LinearOrderedField K] (Y : Fin 23 → K)
    (i : Fin 11) (j : Fin 8) : K :=
  Y ⟨i.val + j.val + 5, by have := i.isLt; have := j.isLt; omega⟩

/-- C2: the window search drops the first 5 of the 23 candidate points,
gives the remaining 18 the synthetic x-coordinates 1..18, scores exactly
the 11 offsets 0..10 with R-squared = ssxy^2/(ssx*ssy) over 8-point
windows (ssxy, ssx, ssy the centered sums with denominator 8), and
cutoff1 selects the earliest offset attaining the maximal score: every
offset scores no higher, and every strictly earlier offset scores
strictly lower. -/
theorem window_search_spec {K : Type} [LinearOrderedField K] (Y : Fin 23 → K) :
    (r2List Y).length = 11 ∧
    (∀ i : Fin 11,
      (r2List Y).getD i.val 0 =
        (∑ j : Fin 8, specWinX i j * specWinY Y i j -
            (∑ j : Fin 8, specWinX i j) * (∑ j : Fin 8, specWinY Y i j) / 8) ^ 2 /
          (((∑ j : Fin 8, specWinX i j ^ 2) -
              (∑ j : Fin 8, specWinX i j) * (∑ j : Fin 8, specWinX i j) / 8) *
            ((∑ j : Fin 8, specWinY Y i j ^ 2) -
              (∑ j : Fin 8, specWinY Y i j) * (∑ j : Fin 8, specWinY Y i j) / 8))) ∧
    cutoff1 Y < 11 ∧
    (∀ k : Fin 11, (r2List Y).getD k.val 0 ≤ (r2List Y).getD (cutoff1 Y) 0) ∧
    (∀ j : Fin 11, cutoff1 Y ≤ j.val ∨
      (r2List Y).getD j.val 0 < (r2List Y).getD (cutoff1 Y) 0) := by
  have hlen : (r2List Y).length = 11 := by simp [r2List]
  have hget : ∀ i : Fin 11, (r2List Y).getD i.val 0 = r2win Y i := by
    intro i
    rw [r2List, List.getD, List.get?_ofFn, List.ofFnNthVal, dif_pos i.isLt]
    rfl
  refine ⟨hlen, ?_, cutoff1_lt_11 Y, ?_, ?_⟩
  · intro i
    rw [hget i]
    rfl
  · intro k
    exact getD_le_npArgmax (r2List Y) 0 k.val (by rw [hlen]; exact k.isLt)
  · intro j
    rcases lt_or_le j.val (cutoff1 Y) with h | h
    · exact Or.inr (getD_lt_of_lt_npArgmax (r2List Y) 0 j.val h)
    · exact Or.inl h

/-- C3: if the 8 points of the selected window lie exactly on the line
y = m*x + b (x the IndConc values, y the candidate pH values) and the
x-values are not all equal, the final regression returns exactly b. -/
theorem finalPH_exact_line {K : Type} [LinearOrderedField K]
    (xs ys : Fin 8 → K) (m b : K)
    (hline : ∀ j, ys j = m * xs j + b) (hne : ∃ j k, xs j ≠ xs k) :
    finalPH xs ys = b := by
  have h8 : ((8 : K)) ≠ 0 := by norm_num
  set S1 := ∑ j, xs j with hS1
  set S2 := ∑ j, xs j ^ 2 with hS2
  have hconst : ∀ c : K, (∑ _j : Fin 8, c) = 8 * c := by
    intro c
    rw [Finset.sum_const, Finset.card_univ, Fintype.card_fin, nsmul_eq_mul]
    norm_num
  have hcenter : ∑ j, (xs j - S1 / 8) ^ 2 = S2 - S1 * S1 / 8 := by
    have hexp : ∀ j : Fin 8, (xs j - S1 / 8) ^ 2
        = xs j ^ 2 - S1 / 4 * xs j + (S1 / 8) ^ 2 := by
      intro j; ring
    rw [Finset.sum_congr rfl fun j _ => hexp j]
    rw [Finset.sum_add_distrib, Finset.sum_sub_distrib, ← Finset.mul_sum,
      hconst, ← hS1, ← hS2]
    field_simp
    ring
  have hmean : ¬ ∀ j, xs j = S1 / 8 := by
    intro hall
    obtain ⟨j, k, hjk⟩ := hne
    exact hjk (by rw [hall j, hall k])
  obtain ⟨j0, hj0⟩ := not_forall.mp hmean
  have hpos : 0 < ∑ j, (xs j - S1 / 8) ^ 2 := by
    refine Finset.sum_pos' (fun t _ => sq_nonneg _) ⟨j0, Finset.mem_univ _, ?_⟩
    exact pow_two_pos_of_ne_zero (sub_ne_zero.mpr hj0)
  have hssx : S2 - S1 * S1 / 8 ≠ 0 := by
    rw [← hcenter]; exact ne_of_gt hpos
  have hsumy : ∑ j, ys j = m * S1 + 8 * b := by
    rw [Finset.sum_congr rfl fun j _ => hline j]
    rw [Finset.sum_add_distrib, ← Finset.mul_sum, hconst, ← hS1]
  have hsumxy : ∑ j, ys j * xs j = m * S2 + b * S1 := by
    have hterm : ∀ j : Fin 8, ys j * xs j = m * xs j ^ 2 + b * xs j := by
      intro j; rw [hline j]; ring
    rw [Finset.sum_congr rfl fun j _ => hterm j]
    rw [Finset.sum_add_distrib, ← Finset.mul_sum, ← Finset.mul_sum, ← hS1, ← hS2]
  simp only [finalPH]
  rw [← hS1, ← hS2, hsumxy, hsumy]
  have hfold : m * S2 + b * S1 - S1 * (m * S1 + 8 * b) / 8
      = m * (S2 - S1 * S1 / 8) := by ring
  rw [hfold, mul_div_assoc, div_self hssx, mul_one]
  field_simp

/-- Concrete window x-values for the regression witness. -/
def wxs : Fin 8 → ℚ := fun j => if j.val = 0 then 0 else 1

/-- Concrete window y-values for the regression witness, on the line
y = 2*x + 3. -/
def wys : Fin 8 → ℚ := fun j => 2 * wxs j + 3

/-- Witness for C3: an exact line with slope 2 and intercept 3 over a
non-constant window recovers pH = 3. -/
theorem finalPH_exact_line_witness :
    (∀ j : Fin 8, wys j = 2 * wxs j + 3) ∧ wxs 0 ≠ wxs 1 ∧
    finalPH wxs wys = 3 :=
  ⟨fun _ => rfl, by decide,
   finalPH_exact_line wxs wys 2 3 (fun _ => rfl) ⟨0, 1, by decide⟩⟩

/-- C4: entry i of the batch output of ph_calc_phwater with a scalar
salinity equals ph_phwater applied to record i with that same salinity;
entries beyond the batch length are absent on both sides. -/
theorem batch_entry_eq_single (recs : List PhRecord) (psal : ℝ) (i : ℕ) :
    (phCalcPhwater recs psal).get? i =
      (recs.get? i).map fun r => phPhwaterRec r psal := by
  induction recs generalizing i with
  | nil => simp [phCalcPhwater]
  | cons r rs ih =>
    cases i with
    | zero => simp [phCalcPhwater, List.replicate_succ]
    | succ k =>
      simpa [phCalcPhwater, List.replicate_succ] using ih k
